import Mathlib

/-!
Verification of the EvoHome backend (src/app/main.py) against its
natural-language specification.

The embedding is shallow: each FastAPI endpoint of main.py becomes a pure
Lean function over an explicit state.  Database tables (SQLAlchemy models
keyed by a unique column) are association lists kept in insertion order;
`query(...).filter(col == k).first()` becomes "first list element whose key
field equals k", and an in-place mutation of that row becomes rebuilding the
list with that first matching element replaced.  JSON column values are a
small inductive `Json` type.  Auto-increment integer ids are elided: no
verified claim depends on them.  The HTTP/auth shell (header parsing, CORS,
static files) is elided where a claim does not mention it; admin-only
endpoints are modelled as the post-authorization operation.
-/

/-- Arbitrary structured JSON value, the content of SQLAlchemy `JSON` columns. -/
inductive Json where
  | null : Json
  | bool (b : Bool) : Json
  | num (n : Int) : Json
  | str (s : String) : Json
  | arr (elems : List Json) : Json
  | obj (fields : List (String × Json)) : Json

/-- A Python `dict` as stored in a `data` column: string-keyed JSON mapping. -/
abbrev Dict := List (String × Json)

/-- FastAPI `HTTPException(status_code, detail)`. -/
structure HTTPError where
  status : Nat
  detail : String
deriving DecidableEq, Repr

/-- Python truthiness of an optional dict: `None` and `{}` are falsy.
`x or y` on such a value yields `y` exactly when `x` is falsy. -/
def pyOrDict (x : Option Dict) (y : Dict) : Dict :=
  match x with
  | none => y
  | some d => if d.isEmpty then y else d

/-! ## Content Store (table `content`, endpoints get_content / set_content) -/

/-- One row of the `content` table: unique string key plus a JSON document. -/
structure ContentRow where
  key : String
  data : Json

/-- Endpoint `GET /content/{key}` (main.py `get_content`): returns the data of
the first row whose key matches (`.filter(...).first()`), 404 otherwise. -/
def get_content (db : List ContentRow) (key : String) : Except HTTPError Json :=
  match db with
  | [] => Except.error { status := 404, detail := "Not found" }
  | r :: rest => if r.key == key then Except.ok r.data else get_content rest key

/-- Endpoint `POST /content/{key}` (main.py `set_content`, after the
`require_admin` guard): if a row with the key exists its `data` field is
assigned the payload, otherwise a new row is added. -/
def set_content (db : List ContentRow) (key : String) (payload : Json) :
    List ContentRow :=
  match db with
  | [] => [{ key := key, data := payload }]
  | r :: rest =>
    if r.key == key then { key := key, data := payload } :: rest
    else r :: set_content rest key payload

theorem get_set_content_same (db : List ContentRow) (key : String) (d : Json) :
    get_content (set_content db key d) key = Except.ok d := by
  induction db with
  | nil => simp [set_content, get_content]
  | cons r rest ih =>
    by_cases h : r.key = key
    · simp [set_content, h, get_content]
    · simpa [set_content, h, get_content] using ih

/-- C1: Content Store round-trip with full replacement: writing `d1` then `d2`
under the same key and reading it back yields exactly `d2` (the second write
fully overwrites the first, no merge), and writing `d` then reading yields `d`. -/
theorem contentStore_roundtrip_overwrite :
    (∀ (db : List ContentRow) (k : String) (d1 d2 : Json),
      get_content (set_content (set_content db k d1) k d2) k = Except.ok d2) ∧
    (∀ (db : List ContentRow) (k : String) (d : Json),
      get_content (set_content db k d) k = Except.ok d) :=
  ⟨fun _ k _ d2 => get_set_content_same _ k d2,
   fun db k d => get_set_content_same db k d⟩

/-! ## Collections (tables `services`, `blogs`, `gallery` and their CRUD) -/

/-- Pydantic `ServiceSchema`: `slug: str`, `name: str`,
`category: Optional[str] = ""`, `data: Optional[dict] = {}`. -/
structure ServiceSchema where
  slug : String
  name : String
  category : Option String := some ""
  data : Option Dict := some []

/-- Pydantic `BlogSchema`: `slug: str`, `title: str`, `data: Optional[dict] = {}`. -/
structure BlogSchema where
  slug : String
  title : String
  data : Option Dict := some []

/-- Pydantic `GallerySchema`: `title: str`, `category: Optional[str] = ""`,
`data: Optional[dict] = {}`. -/
structure GallerySchema where
  title : String
  category : Option String := some ""
  data : Option Dict := some []

/-- One row of the `services` table (auto-increment `id` elided). -/
structure ServiceItem where
  slug : String
  name : String
  category : Option String
  data : Dict

/-- One row of the `blogs` table (auto-increment `id` elided). -/
structure BlogPost where
  slug : String
  title : String
  data : Dict

/-- One row of the `gallery` table; rows are addressed by integer `id`. -/
structure GalleryItem where
  id : Nat
  title : String
  category : Option String
  data : Dict

/-- Endpoint `POST /services` (main.py `create_service`, after the admin
guard): inserts a new row built from the payload; `data=payload.data or {}`. -/
def create_service (db : List ServiceItem) (payload : ServiceSchema) :
    List ServiceItem :=
  db ++ [{ slug := payload.slug, name := payload.name,
           category := payload.category, data := pyOrDict payload.data [] }]

/-- Endpoint `GET /services` (main.py `list_services`): all rows in table
order, projected to their fields. -/
def list_services (db : List ServiceItem) :
    List (String × String × Option String × Dict) :=
  db.map (fun r => (r.slug, r.name, r.category, r.data))

/-- Row written by `update_service` over existing row `r`: the denormalized
fields come from the payload, and `r.data = payload.data or r.data`. -/
def updatedService (payload : ServiceSchema) (r : ServiceItem) : ServiceItem :=
  { slug := payload.slug, name := payload.name, category := payload.category,
    data := pyOrDict payload.data r.data }

/-- Update pattern shared by the three `PUT` endpoints of main.py: find the
first row satisfying the filter, overwrite it in place leaving every other
row untouched, or answer 404 when no row matches. -/
def updateFirst {α : Type} (hit : α → Bool) (upd : α → α) :
    List α → Except HTTPError (List α)
  | [] => Except.error { status := 404, detail := "Not found" }
  | r :: rest =>
    if hit r then Except.ok (upd r :: rest)
    else (updateFirst hit upd rest).map (r :: ·)

/-- Endpoint `PUT /services/{slug}` (main.py `update_service`, after the admin
guard): finds the first row with the given slug, overwrites its fields in
place (`r.data = payload.data or r.data`), 404 when no row matches. -/
def update_service (db : List ServiceItem) (slug : String)
    (payload : ServiceSchema) : Except HTTPError (List ServiceItem) :=
  updateFirst (fun r => r.slug == slug) (updatedService payload) db

/-- Row written by `update_blog` over existing row `r`. -/
def updatedBlog (payload : BlogSchema) (r : BlogPost) : BlogPost :=
  { slug := payload.slug, title := payload.title,
    data := pyOrDict payload.data r.data }

/-- Endpoint `PUT /blogs/{slug}` (main.py `update_blog`, after the admin
guard): first row with the slug gets slug/title overwritten and
`r.data = payload.data or r.data`; 404 when no row matches. -/
def update_blog (db : List BlogPost) (slug : String) (payload : BlogSchema) :
    Except HTTPError (List BlogPost) :=
  updateFirst (fun r => r.slug == slug) (updatedBlog payload) db

/-- Raw JSON body of a service write request, before pydantic validation:
each field may be present or absent. -/
structure ServiceInput where
  slug : Option String := none
  name : Option String := none
  category : Option String := none
  data : Option Dict := none

/-- Pydantic validation of `ServiceSchema` as FastAPI applies it to a request
body: `slug` and `name` are required (no default in the class), so a body
missing either is rejected with a 422 validation error before the endpoint
runs; `category` and `data` fall back to their declared defaults. -/
def parse_service_schema (input : ServiceInput) : Except HTTPError ServiceSchema :=
  match input.slug with
  | none => Except.error { status := 422, detail := "field required: slug" }
  | some s =>
    match input.name with
    | none => Except.error { status := 422, detail := "field required: name" }
    | some n =>
      Except.ok { slug := s, name := n,
                  category := some (input.category.getD ""),
                  data := some (input.data.getD []) }

/-- Endpoint `POST /services` including FastAPI request-body validation: the
body is parsed against `ServiceSchema` and only a valid body reaches
`create_service`. -/
def create_service_endpoint (db : List ServiceItem) (input : ServiceInput) :
    Except HTTPError (List ServiceItem) :=
  (parse_service_schema input).map (create_service db)

/-- Maximal alphanumeric runs of a character list, lower-cased: a
non-alphanumeric character closes the current run (`cur` holds the current
run reversed), and empty runs are dropped. -/
def slugWords (cur : List Char) (acc : List String) :
    List Char → List String
  | [] => if cur.isEmpty then acc.reverse else (String.mk cur.reverse :: acc).reverse
  | c :: cs =>
    if c.isAlphanum then slugWords (c.toLower :: cur) acc cs
    else if cur.isEmpty then slugWords [] acc cs
    else slugWords [] (String.mk cur.reverse :: acc) cs

/-- Joins words with a single "-" separator. -/
def joinDash : List String → String
  | [] => ""
  | [w] => w
  | w :: ws => w ++ "-" ++ joinDash ws

/-- Modelled from the spec: the key-derivation function "slugify: lower-case,
non-alphanumeric runs replaced by a single separator, leading/trailing
separators trimmed"; no such function exists in src/app/main.py. -/
def slugify (s : String) : String :=
  joinDash (slugWords [] [] s.data)

/-- Modelled from the spec: the Collection Manager is "generic over a record
kind; parameterized by (a) the field used as unique key, (b) a deterministic
key-derivation function ... used when the caller omits an explicit key, and
(c) which payload fields are denormalized"; no such generic engine exists in
src/app/main.py. `deriveKey` returns the payload's unique key or derives one,
`none` when no key is derivable; `build` makes the record for a derived key. -/
structure CollectionKind (P R : Type) where
  deriveKey : P → Option String
  build : String → P → R

/-- Modelled from the spec: "`replaceAll(items)`: the entire record set for
the kind is atomically replaced by the given sequence — records not present
in `items` cease to exist. Items without a derivable unique key are skipped";
no such operation exists in src/app/main.py (the random-key fallback for an
empty derivation is not modelled: an empty derivation counts as not
derivable, and the item is skipped). -/
def replaceAll {P R : Type} (K : CollectionKind P R) (items : List P)
    (_db : List R) : List R :=
  items.filterMap (fun p => (K.deriveKey p).map (fun k => K.build k p))

/-- Service instance of the spec's Collection Manager: the unique key is the
slug, derived by `slugify` from the name when absent, and name/category are
the denormalized fields. -/
def serviceKind : CollectionKind ServiceInput ServiceItem where
  deriveKey p :=
    match p.slug with
    | some s => some s
    | none =>
      match p.name with
      | some n => if slugify n = "" then none else some (slugify n)
      | none => none
  build k p :=
    { slug := k, name := p.name.getD "", category := some (p.category.getD ""),
      data := p.data.getD [] }

/-- Row written by `update_gallery` over existing row `r` (the `id` column is
not reassigned). -/
def updatedGallery (payload : GallerySchema) (r : GalleryItem) : GalleryItem :=
  { id := r.id, title := payload.title, category := payload.category,
    data := pyOrDict payload.data r.data }

/-- Endpoint `PUT /gallery/{item_id}` (main.py `update_gallery`, after the
admin guard): first row with the id gets title/category overwritten and
`r.data = payload.data or r.data`; 404 when no row matches. -/
def update_gallery (db : List GalleryItem) (item_id : Nat)
    (payload : GallerySchema) : Except HTTPError (List GalleryItem) :=
  updateFirst (fun r => r.id == item_id) (updatedGallery payload) db

/-- Characterization of a successful `updateFirst`: the table splits as
`pre ++ old :: post` where `old` is the first matching row, and the result
overwrites exactly that row. -/
theorem updateFirst_ok {α : Type} {hit : α → Bool} {upd : α → α}
    {db db' : List α} (h : updateFirst hit upd db = Except.ok db') :
    ∃ pre old post, db = pre ++ old :: post ∧ hit old = true ∧
      (∀ x ∈ pre, hit x = false) ∧ db' = pre ++ upd old :: post := by
  induction db generalizing db' with
  | nil => simp [updateFirst] at h
  | cons r rest ih =>
    by_cases hr : hit r
    · refine ⟨[], r, rest, rfl, hr, by simp, ?_⟩
      simp only [updateFirst, hr, if_true] at h
      simpa using (Except.ok.inj h).symm
    · simp only [updateFirst, hr, if_false] at h
      cases hrest : updateFirst hit upd rest with
      | error e => rw [hrest] at h; simp [Except.map] at h
      | ok rest' =>
        rw [hrest] at h
        simp only [Except.map] at h
        obtain ⟨pre, old, post, hdb, hold, hpre, hres⟩ := ih hrest
        refine ⟨r :: pre, old, post, by simp [hdb], hold, ?_, ?_⟩
        · intro x hx
          rcases List.mem_cons.mp hx with hx | hx
          · simpa [hx] using hr
          · exact hpre x hx
        · have : db' = r :: rest' := (Except.ok.inj h).symm
          simp [this, hres]

/-- Service row used as the concrete pre-state in counterexamples/witnesses. -/
def svcOld : ServiceItem :=
  { slug := "a", name := "A", category := some "", data := [("k", Json.num 1)] }

/-- Update payload addressed to slug "a" whose `data` mapping is empty. -/
def svcPayloadEmptyData : ServiceSchema :=
  { slug := "a", name := "B", category := some "c", data := some [] }

/-- Update payload addressed to slug "a" with a non-empty `data` mapping. -/
def svcUpdPayload : ServiceSchema :=
  { slug := "b", name := "B", category := some "c",
    data := some [("x", Json.str "y")] }

/-- Result of updating `[svcOld]` at slug "a" with `svcUpdPayload`. -/
def svcUpdResult : List ServiceItem :=
  [{ slug := "b", name := "B", category := some "c",
     data := [("x", Json.str "y")] }]

/-- Raw service payload carrying only a name, no slug. -/
def solarInput : ServiceInput := { name := some "Solar Power" }

/-- C2: bulk replace — after `replaceAll(items)` the listing is exactly the
records built from `items`: it is independent of the previous record set
(records not in `items` cease to exist), a row is listed iff it is built
from some item with a derivable key, and `replaceAll([])` makes `list()`
return the empty sequence. -/
theorem replaceAll_replaces_record_set :
    (∀ (items : List ServiceInput) (db₁ db₂ : List ServiceItem),
      replaceAll serviceKind items db₁ = replaceAll serviceKind items db₂) ∧
    (∀ (items : List ServiceInput) (db : List ServiceItem)
        (r : String × String × Option String × Dict),
      r ∈ list_services (replaceAll serviceKind items db) ↔
        ∃ p, p ∈ items ∧ ∃ k, serviceKind.deriveKey p = some k ∧
          r = ((serviceKind.build k p).slug, (serviceKind.build k p).name,
               (serviceKind.build k p).category, (serviceKind.build k p).data)) ∧
    (∀ db : List ServiceItem, list_services (replaceAll serviceKind [] db) = []) := by
  refine ⟨fun items db₁ db₂ => rfl, ?_, fun db => rfl⟩
  intro items db r
  simp only [list_services, replaceAll, List.mem_map, List.mem_filterMap,
    Option.map_eq_some']
  constructor
  · rintro ⟨rec, ⟨p, hp, k, hk, rfl⟩, rfl⟩
    exact ⟨p, hp, k, hk, rfl⟩
  · rintro ⟨p, hp, k, hk, rfl⟩
    exact ⟨serviceKind.build k p, ⟨p, hp, k, hk, rfl⟩, rfl⟩

/-- C2 witness: replacing with the empty item sequence empties the listing on
a concrete non-empty table. -/
theorem replaceAll_replaces_record_set_witness :
    list_services (replaceAll serviceKind [] [svcOld]) = [] :=
  replaceAll_replaces_record_set.2.2 [svcOld]

/-- C3 counterexample: updating the existing key "a" with a payload whose
`data` mapping is empty leaves the stored payload at its old value
`[("k", 1)]`, which differs from the supplied payload `[]` — the full payload
is not overwritten in place, contradicting the claim as stated. -/
theorem update_service_empty_data_cex :
    update_service [svcOld] "a" svcPayloadEmptyData =
      Except.ok [{ slug := "a", name := "B", category := some "c",
                   data := [("k", Json.num 1)] }] ∧
    ¬ ([("k", Json.num 1)] : Dict) = ([] : Dict) := by
  exact ⟨rfl, by simp⟩

/-- C3 (amended): an update addressed to an existing key overwrites the
record's denormalized fields in place and keeps the total record count; the
full payload is overwritten exactly when the supplied data mapping is
non-empty — an empty or absent mapping keeps the stored payload
(main.py line 377, `r.data = payload.data or r.data`). -/
theorem update_existing_key_count_and_denormalized :
    ∀ (db : List ServiceItem) (slug : String) (p : ServiceSchema)
      (db' : List ServiceItem), update_service db slug p = Except.ok db' →
      db'.length = db.length ∧
      ∃ old, old ∈ db ∧ old.slug = slug ∧
        ∃ upd, upd ∈ db' ∧ upd.slug = p.slug ∧ upd.name = p.name ∧
          upd.category = p.category ∧
          ((p.data = none ∨ p.data = some []) → upd.data = old.data) ∧
          (∀ l, p.data = some l → l ≠ [] → upd.data = l) := by
  intro db slug p db' h
  obtain ⟨pre, old, post, hdb, hold, hpre, hres⟩ := updateFirst_ok h
  subst hdb
  subst hres
  refine ⟨by simp, old, by simp, by simpa using hold,
    updatedService p old, by simp, rfl, rfl, rfl, ?_, ?_⟩
  · rintro (hd | hd) <;> simp [updatedService, pyOrDict, hd]
  · intro l hd hne
    simp [updatedService, pyOrDict, hd, hne]

/-- C3 witness: on a one-row table the update at the existing key "a"
succeeds and the row count is still 1. -/
theorem update_existing_key_count_and_denormalized_witness :
    update_service [svcOld] "a" svcUpdPayload = Except.ok svcUpdResult ∧
    svcUpdResult.length = ([svcOld] : List ServiceItem).length :=
  ⟨rfl, (update_existing_key_count_and_denormalized [svcOld] "a" svcUpdPayload
    svcUpdResult rfl).1⟩

/-- C4 counterexample: a service payload with `name = "Solar Power"` and no
slug is rejected by schema validation with a 422 error — no record with slug
"solar-power" is created, contradicting the claim as stated (although the
spec's derivation would indeed give slugify "Solar Power" = "solar-power"). -/
theorem create_service_missing_slug_cex :
    create_service_endpoint [] solarInput =
      Except.error { status := 422, detail := "field required: slug" } ∧
    slugify "Solar Power" = "solar-power" :=
  ⟨rfl, rfl⟩

/-- C4 (amended): a service upsert payload lacking the unique-key field is
rejected by schema validation (422, required field) before any record is
created — the key is never derived from the name: `ServiceSchema` declares
`slug: str` with no default and src/app/main.py contains no slugify. -/
theorem create_service_requires_explicit_slug :
    ∀ (db : List ServiceItem) (input : ServiceInput), input.slug = none →
      create_service_endpoint db input =
        Except.error { status := 422, detail := "field required: slug" } := by
  intro db input h
  simp [create_service_endpoint, parse_service_schema, h, Except.map]

/-- C4 witness: the amended rejection at the concrete slug-less payload. -/
theorem create_service_requires_explicit_slug_witness :
    solarInput.slug = none ∧
    create_service_endpoint [] solarInput =
      Except.error { status := 422, detail := "field required: slug" } :=
  ⟨rfl, create_service_requires_explicit_slug [] solarInput rfl⟩

/-- C10: frame condition of the three update endpoints — a successful update
rewrites exactly the first matching row and no other; the written row takes
its denormalized fields (slug/name/title/category) from the payload, keeps
the stored `data` payload when the supplied mapping is absent or empty, and
replaces it only when a non-empty mapping is supplied. -/
theorem update_empty_data_frame_condition :
    (∀ (db : List ServiceItem) (slug : String) (p : ServiceSchema) db',
      update_service db slug p = Except.ok db' →
      ∃ pre old post, db = pre ++ old :: post ∧ old.slug = slug ∧
        db' = pre ++ { slug := p.slug, name := p.name, category := p.category,
                       data := match p.data with
                               | none => old.data
                               | some [] => old.data
                               | some (x :: xs) => x :: xs } :: post) ∧
    (∀ (db : List BlogPost) (slug : String) (p : BlogSchema) db',
      update_blog db slug p = Except.ok db' →
      ∃ pre old post, db = pre ++ old :: post ∧ old.slug = slug ∧
        db' = pre ++ { slug := p.slug, title := p.title,
                       data := match p.data with
                               | none => old.data
                               | some [] => old.data
                               | some (x :: xs) => x :: xs } :: post) ∧
    (∀ (db : List GalleryItem) (item_id : Nat) (p : GallerySchema) db',
      update_gallery db item_id p = Except.ok db' →
      ∃ pre old post, db = pre ++ old :: post ∧ old.id = item_id ∧
        db' = pre ++ { id := old.id, title := p.title, category := p.category,
                       data := match p.data with
                               | none => old.data
                               | some [] => old.data
                               | some (x :: xs) => x :: xs } :: post) := by
  refine ⟨?_, ?_, ?_⟩
  · intro db slug p db' h
    obtain ⟨pre, old, post, hdb, hold, hpre, hres⟩ := updateFirst_ok h
    refine ⟨pre, old, post, hdb, by simpa using hold, ?_⟩
    rw [hres]
    cases hd : p.data with
    | none => simp [updatedService, pyOrDict, hd]
    | some l => cases l <;> simp [updatedService, pyOrDict, hd]
  · intro db slug p db' h
    obtain ⟨pre, old, post, hdb, hold, hpre, hres⟩ := updateFirst_ok h
    refine ⟨pre, old, post, hdb, by simpa using hold, ?_⟩
    rw [hres]
    cases hd : p.data with
    | none => simp [updatedBlog, pyOrDict, hd]
    | some l => cases l <;> simp [updatedBlog, pyOrDict, hd]
  · intro db item_id p db' h
    obtain ⟨pre, old, post, hdb, hold, hpre, hres⟩ := updateFirst_ok h
    refine ⟨pre, old, post, hdb, by simpa using hold, ?_⟩
    rw [hres]
    cases hd : p.data with
    | none => simp [updatedGallery, pyOrDict, hd]
    | some l => cases l <;> simp [updatedGallery, pyOrDict, hd]

/-- C10 witness: the service frame condition applied at a concrete update
with an empty data mapping — the stored payload survives. -/
theorem update_empty_data_frame_condition_witness :
    update_service [svcOld] "a" svcPayloadEmptyData =
      Except.ok [{ slug := "a", name := "B", category := some "c",
                   data := [("k", Json.num 1)] }] ∧
    (∃ pre old post, ([svcOld] : List ServiceItem) = pre ++ old :: post ∧
      old.slug = "a" ∧
      ([{ slug := "a", name := "B", category := some "c",
          data := [("k", Json.num 1)] }] : List ServiceItem) =
        pre ++ { slug := svcPayloadEmptyData.slug,
                 name := svcPayloadEmptyData.name,
                 category := svcPayloadEmptyData.category,
                 data := match svcPayloadEmptyData.data with
                         | none => old.data
                         | some [] => old.data
                               | some (x :: xs) => x :: xs } :: post) :=
  ⟨rfl, update_empty_data_frame_condition.1 [svcOld] "a" svcPayloadEmptyData
    [{ slug := "a", name := "B", category := some "c",
       data := [("k", Json.num 1)] }] rfl⟩

/-! ## Token Authenticator (main.py auth helpers and `admin_login`) -/

/-- Tests whether an endpoint call succeeded (did not raise an HTTPException). -/
def isSuccess {α : Type} : Except HTTPError α → Bool
  | Except.ok _ => true
  | Except.error _ => false

/-- JWT claim set of an admin access token: the encoded dict
`{"sub": ..., "email": ...}` plus the `"exp"` instant that
`create_access_token` adds (seconds since the epoch in this model). -/
structure Claims where
  sub : String
  email : String
  exp : Int
deriving DecidableEq, Repr

/-- Signed token. The HS256 signature over a payload is modelled as the pair
(secret, payload): a signature verifies iff it was produced with the same
secret over the same payload (collisions of the real MAC are outside the
model). -/
structure Token where
  claims : Claims
  sig : String × Claims
deriving DecidableEq, Repr

/-- Signing half of `jose.jwt.encode(payload, secret, algorithm="HS256")`. -/
def jwtEncode (secret : String) (c : Claims) : Token :=
  { claims := c, sig := (secret, c) }

/-- Decoding half, `jose.jwt.decode(token, secret, algorithms=["HS256"])` at
current time `now`: raises JWTError (`none` here) when the signature does
not verify or when the `exp` claim lies in the past. -/
def jwtDecode (secret : String) (now : Int) (t : Token) : Option Claims :=
  if t.sig = (secret, t.claims) then
    if t.claims.exp < now then none else some t.claims
  else none

/-- main.py `create_access_token`: copies the data and adds
`exp = utcnow() + (expires_delta or timedelta(minutes=JWT_EXPIRE_MINUTES))`,
then signs with the configured secret; durations are in seconds here. -/
def create_access_token (secret : String) (expireMinutes : Int) (now : Int)
    (sub email : String) (expiresDelta : Option Int) : Token :=
  jwtEncode secret
    { sub := sub, email := email,
      exp := now + expiresDelta.getD (expireMinutes * 60) }

/-- main.py `verify_token`: the decoded payload, or `None` on any JWTError. -/
def verify_token (secret : String) (now : Int) (t : Token) : Option Claims :=
  jwtDecode secret now t

/-- main.py `require_admin` after bearer extraction: accepts exactly when
`verify_token` returns a payload whose `"sub"` claim equals "admin". -/
def require_admin (secret : String) (now : Int) (t : Token) : Bool :=
  match verify_token secret now t with
  | none => false
  | some payload => payload.sub == "admin"

/-- Python `str.lower()` (per-character lower-casing). -/
def pyLower (s : String) : String :=
  String.mk (s.data.map Char.toLower)

/-- Configuration read from the environment by main.py. -/
structure AdminConfig where
  adminEmail : String
  adminPassword : String
  jwtSecret : String
  jwtExpireMinutes : Int

/-- main.py `admin_login`: 401 "Invalid credentials" unless the email
matches case-insensitively and the password matches exactly; on success
issues a token for subject "admin" with the configured admin email and the
default expiry. -/
def admin_login (cfg : AdminConfig) (now : Int) (email password : String) :
    Except HTTPError Token :=
  if pyLower email ≠ pyLower cfg.adminEmail ∨ password ≠ cfg.adminPassword then
    Except.error { status := 401, detail := "Invalid credentials" }
  else
    Except.ok (create_access_token cfg.jwtSecret cfg.jwtExpireMinutes now
      "admin" cfg.adminEmail none)

/-- C5: login succeeds (returns a token) exactly when the supplied email
equals the configured admin email ignoring letter case and the password
equals the configured password exactly; and every two failing attempts —
wrong password with the right email, or unknown email — produce the
identical error result (no user enumeration). -/
theorem admin_login_no_enumeration :
    ∀ (cfg : AdminConfig) (now : Int),
      (∀ email password,
        isSuccess (admin_login cfg now email password) = true ↔
          (pyLower email = pyLower cfg.adminEmail ∧
           password = cfg.adminPassword)) ∧
      (∀ e₁ p₁ e₂ p₂,
        isSuccess (admin_login cfg now e₁ p₁) = false →
        isSuccess (admin_login cfg now e₂ p₂) = false →
        admin_login cfg now e₁ p₁ = admin_login cfg now e₂ p₂) := by
  intro cfg now
  have key : ∀ email password,
      admin_login cfg now email password =
        if pyLower email = pyLower cfg.adminEmail ∧ password = cfg.adminPassword
        then Except.ok (create_access_token cfg.jwtSecret cfg.jwtExpireMinutes
          now "admin" cfg.adminEmail none)
        else Except.error { status := 401, detail := "Invalid credentials" } := by
    intro email password
    rw [admin_login]
    by_cases h1 : pyLower email = pyLower cfg.adminEmail <;>
      by_cases h2 : password = cfg.adminPassword <;>
      simp [h1, h2]
  constructor
  · intro email password
    rw [key]
    by_cases h : pyLower email = pyLower cfg.adminEmail ∧
        password = cfg.adminPassword <;> simp [h, isSuccess]
  · intro e₁ p₁ e₂ p₂ h₁ h₂
    simp only [key] at h₁ h₂ ⊢
    by_cases c₁ : pyLower e₁ = pyLower cfg.adminEmail ∧ p₁ = cfg.adminPassword
    · simp [c₁, isSuccess] at h₁
    · by_cases c₂ : pyLower e₂ = pyLower cfg.adminEmail ∧ p₂ = cfg.adminPassword
      · simp [c₂, isSuccess] at h₂
      · simp [c₁, c₂]

/-- Concrete deployment configuration used by witnesses. -/
def cfg0 : AdminConfig :=
  { adminEmail := "Admin@Example.com", adminPassword := "pw",
    jwtSecret := "s", jwtExpireMinutes := 240 }

/-- C5 witness: with the admin email configured as "Admin@Example.com",
login with "admin@example.com" and the right password succeeds, and the two
failure modes (wrong password vs unknown email) return the same result. -/
theorem admin_login_no_enumeration_witness :
    isSuccess (admin_login cfg0 0 "admin@example.com" "pw") = true ∧
    admin_login cfg0 0 "admin@example.com" "bad" =
      admin_login cfg0 0 "other@example.com" "pw" :=
  ⟨((admin_login_no_enumeration cfg0 0).1 "admin@example.com" "pw").mpr
      (by constructor <;> rfl),
   (admin_login_no_enumeration cfg0 0).2 "admin@example.com" "bad"
      "other@example.com" "pw" (by rfl) (by rfl)⟩

/-- C6: token verification rejects a token whose signature is invalid, whose
expiry has passed, or whose subject claim is not exactly "admin"; in
particular a token issued with a 1-second expiry and verified 2 seconds
after issuance is rejected by `verify_token`. -/
theorem verify_token_rejects_expired_and_non_admin :
    ∀ (secret : String) (now : Int) (t : Token),
      (t.sig ≠ (secret, t.claims) → require_admin secret now t = false) ∧
      (t.claims.exp < now → require_admin secret now t = false) ∧
      (t.claims.sub ≠ "admin" → require_admin secret now t = false) ∧
      (∀ (expireMinutes t₀ : Int) (sub email : String),
        verify_token secret (t₀ + 2)
          (create_access_token secret expireMinutes t₀ sub email (some 1)) =
          none) := by
  intro secret now t
  refine ⟨?_, ?_, ?_, ?_⟩
  · intro h
    simp [require_admin, verify_token, jwtDecode, h]
  · intro h
    by_cases hs : t.sig = (secret, t.claims) <;>
      simp [require_admin, verify_token, jwtDecode, hs, h]
  · intro h
    by_cases hs : t.sig = (secret, t.claims)
    · by_cases he : t.claims.exp < now <;>
        simp [require_admin, verify_token, jwtDecode, hs, he, h]
    · simp [require_admin, verify_token, jwtDecode, hs]
  · intro expireMinutes t₀ sub email
    have hexp : (t₀ + 1 : Int) < t₀ + 2 := by omega
    simp [verify_token, jwtDecode, create_access_token, jwtEncode, hexp]

/-- Admin token with expiry instant 5, signed with secret "s". -/
def token0 : Token := jwtEncode "s" { sub := "admin", email := "e", exp := 5 }

/-- C6 witness: the concrete admin token that expired at instant 5 is
rejected at instant 10, and a token issued at 0 with a 1-second expiry fails
verification at instant 2. -/
theorem verify_token_rejects_expired_and_non_admin_witness :
    ((5 : Int) < 10 ∧ require_admin "s" 10 token0 = false) ∧
    verify_token "s" 2 (create_access_token "s" 240 0 "admin" "e" (some 1)) =
      none :=
  ⟨⟨by decide,
    (verify_token_rejects_expired_and_non_admin "s" 10 token0).2.1 (by decide)⟩,
   by
    have h := (verify_token_rejects_expired_and_non_admin "s" 2 token0).2.2.2
      240 0 "admin" "e"
    simpa using h⟩

/-! ## Rate Limiter (main.py `rate_limit` over `RATE_STORE`) -/

/-- An HTTP request as the limiter sees it: the method, the client address
`request.client.host`, and the route path — present on the request object
but never read by `rate_limit`. -/
structure Req where
  method : String
  ip : String
  path : String

/-- The process-wide `RATE_STORE: Dict[str, List[float]]`, keyed by client
address; timestamps are integer seconds in this model. -/
abbrev RateStore := List (String × List Int)

/-- Python `RATE_STORE.get(ip, [])`. -/
def storeGet (s : RateStore) (ip : String) : List Int :=
  match s with
  | [] => []
  | (k, v) :: rest => if k == ip then v else storeGet rest ip

/-- Python `RATE_STORE[ip] = lst` (insert or overwrite the key's entry). -/
def storeSet (s : RateStore) (ip : String) (l : List Int) : RateStore :=
  match s with
  | [] => [(ip, l)]
  | (k, v) :: rest =>
    if k == ip then (ip, l) :: rest else (k, v) :: storeSet rest ip l

/-- main.py `rate_limit`: non-POST requests pass untouched
(`if request.method != "POST": return`); for a POST, the client's timestamp
list is pruned to the trailing 60-second window, the request is rejected
with 429 when the pruned count has reached RATE_LIMIT_PER_MIN — without
recording the attempt — and otherwise the current time is appended and the
list stored back. -/
def rate_limit (limitPerMin : Nat) (now : Int) (req : Req)
    (store : RateStore) : Except HTTPError RateStore :=
  if req.method != "POST" then Except.ok store
  else
    let lst := (storeGet store req.ip).filter (fun ts => now - ts < 60)
    if limitPerMin ≤ lst.length then
      Except.error { status := 429, detail := "Too many requests - slow down" }
    else Except.ok (storeSet store req.ip (lst ++ [now]))

/-- Applies `rate_limit` to a sequence of timed requests left to right,
propagating the first rejection. -/
def rateLimitSeq (limitPerMin : Nat) :
    List (Int × Req) → RateStore → Except HTTPError RateStore
  | [], store => Except.ok store
  | (now, req) :: rest, store =>
    (rate_limit limitPerMin now req store).bind (rateLimitSeq limitPerMin rest)

theorem storeGet_storeSet_same (s : RateStore) (ip : String) (l : List Int) :
    storeGet (storeSet s ip l) ip = l := by
  induction s with
  | nil => simp [storeSet, storeGet]
  | cons kv rest ih =>
    obtain ⟨k, v⟩ := kv
    by_cases h : k = ip
    · simp [storeSet, storeGet, h]
    · simpa [storeSet, storeGet, h] using ih

theorem storeGet_storeSet_ne (s : RateStore) (ip ip₂ : String)
    (l : List Int) (h : ip ≠ ip₂) :
    storeGet (storeSet s ip l) ip₂ = storeGet s ip₂ := by
  induction s with
  | nil => simp [storeSet, storeGet, h]
  | cons kv rest ih =>
    obtain ⟨k, v⟩ := kv
    by_cases hk : k = ip
    · subst hk
      simp [storeSet, storeGet, h]
    · by_cases hk2 : k = ip₂
      · simp [storeSet, storeGet, hk, hk2, Ne.symm h]
      · simp [storeSet, storeGet, hk, hk2, ih]

/-- PUT request used to exhibit the POST-only scope of the limiter. -/
def putReq : Req :=
  { method := "PUT", ip := "203.0.113.7", path := "/services/x" }

/-- C7 counterexample: with window 60s and maximum 3, four PUT requests —
state-mutating requests — from the same client to the same route within the
window are all accepted (`rate_limit` returns without recording anything for
a non-POST method), so the fourth is not rejected with 429 as the claim
states for mutating requests. -/
theorem rate_limit_put_exempt_cex :
    rateLimitSeq 3 [(0, putReq), (1, putReq), (2, putReq), (3, putReq)] [] =
      Except.ok [] :=
  rfl

/-- C7 (amended): sliding-window limiting of POST requests only (main.py
exempts every non-POST method): with window 60s and maximum 3, four POSTs
from the same client within the window have the first three succeed and the
fourth rejected with 429, the rejected attempt's timestamp is not recorded
(the store stays as after the third request), and a request after the window
has elapsed succeeds again. -/
theorem rate_limit_sliding_window :
    ∀ (req : Req) (store : RateStore) (t0 t1 t2 t3 t4 : Int),
      req.method = "POST" → storeGet store req.ip = [] →
      t0 ≤ t1 → t1 ≤ t2 → t2 ≤ t3 → t3 - t0 < 60 → t2 + 60 ≤ t4 →
      rate_limit 3 t0 req store = Except.ok (storeSet store req.ip [t0]) ∧
      rate_limit 3 t1 req (storeSet store req.ip [t0]) =
        Except.ok (storeSet (storeSet store req.ip [t0]) req.ip [t0, t1]) ∧
      rate_limit 3 t2 req
          (storeSet (storeSet store req.ip [t0]) req.ip [t0, t1]) =
        Except.ok (storeSet (storeSet (storeSet store req.ip [t0]) req.ip
          [t0, t1]) req.ip [t0, t1, t2]) ∧
      rate_limit 3 t3 req (storeSet (storeSet (storeSet store req.ip [t0])
          req.ip [t0, t1]) req.ip [t0, t1, t2]) =
        Except.error { status := 429,
                       detail := "Too many requests - slow down" } ∧
      rate_limit 3 t4 req (storeSet (storeSet (storeSet store req.ip [t0])
          req.ip [t0, t1]) req.ip [t0, t1, t2]) =
        Except.ok (storeSet (storeSet (storeSet (storeSet store req.ip [t0])
          req.ip [t0, t1]) req.ip [t0, t1, t2]) req.ip [t4]) := by
  intro req store t0 t1 t2 t3 t4 hm h0 h01 h12 h23 hwin helapsed
  have hm' : (req.method != "POST") = false := by simp [hm]
  have k10 : t1 - t0 < 60 := by omega
  have k20 : t2 - t0 < 60 := by omega
  have k21 : t2 - t1 < 60 := by omega
  have k30 : t3 - t0 < 60 := by omega
  have k31 : t3 - t1 < 60 := by omega
  have k32 : t3 - t2 < 60 := by omega
  have n40 : ¬ (t4 - t0 < 60) := by omega
  have n41 : ¬ (t4 - t1 < 60) := by omega
  have n42 : ¬ (t4 - t2 < 60) := by omega
  refine ⟨?_, ?_, ?_, ?_, ?_⟩
  · simp [rate_limit, hm', h0]
  · simp [rate_limit, hm', storeGet_storeSet_same, List.filter, k10]
  · simp [rate_limit, hm', storeGet_storeSet_same, List.filter, k20, k21]
  · simp [rate_limit, hm', storeGet_storeSet_same, List.filter, k30, k31, k32]
  · simp [rate_limit, hm', storeGet_storeSet_same, List.filter, n40, n41, n42]

/-- POST request to the lead route from a fixed client. -/
def leadReq : Req :=
  { method := "POST", ip := "198.51.100.9", path := "/lead" }

/-- POST request to the chatbot route from the same client. -/
def chatReq : Req :=
  { method := "POST", ip := "198.51.100.9", path := "/chatbot" }

/-- C7 witness: the amended sliding-window behavior at concrete times
0, 10, 20 (accepted), 30 (rejected) and 100 (accepted again) for a POST. -/
theorem rate_limit_sliding_window_witness :
    (leadReq.method = "POST" ∧ storeGet [] leadReq.ip = []) ∧
    rate_limit 3 30 leadReq
        (storeSet (storeSet (storeSet [] leadReq.ip [0]) leadReq.ip [0, 10])
          leadReq.ip [0, 10, 20]) =
      Except.error { status := 429,
                     detail := "Too many requests - slow down" } ∧
    rate_limit 3 100 leadReq
        (storeSet (storeSet (storeSet [] leadReq.ip [0]) leadReq.ip [0, 10])
          leadReq.ip [0, 10, 20]) =
      Except.ok (storeSet (storeSet (storeSet (storeSet [] leadReq.ip [0])
        leadReq.ip [0, 10]) leadReq.ip [0, 10, 20]) leadReq.ip [100]) :=
  ⟨⟨rfl, rfl⟩,
   (rate_limit_sliding_window leadReq [] 0 10 20 30 100 rfl rfl (by decide)
      (by decide) (by decide) (by decide) (by decide)).2.2.2.1,
   (rate_limit_sliding_window leadReq [] 0 10 20 30 100 rfl rfl (by decide)
      (by decide) (by decide) (by decide) (by decide)).2.2.2.2⟩

/-- C8 counterexample: with maximum 3, three POSTs to the route "/lead"
followed by a first POST to the different route "/chatbot" by the same
client within the window: the "/chatbot" request is rejected with 429, so a
request to one route does count toward the limit applied to another route —
`rate_limit` keys `RATE_STORE` by client address only. -/
theorem rate_limit_shared_across_routes_cex :
    rateLimitSeq 3 [(0, leadReq), (1, leadReq), (2, leadReq), (3, chatReq)]
        [] =
      Except.error { status := 429,
                     detail := "Too many requests - slow down" } :=
  rfl

/-- C8 (amended): the window is keyed by the client address alone: the
limiter's outcome never depends on the route path (one shared window for all
routes of a client), while a request from one client leaves every other
client's recorded window unchanged. -/
theorem rate_limit_per_client_granularity :
    (∀ (limitPerMin : Nat) (now : Int) (m ip p₁ p₂ : String)
        (store : RateStore),
      rate_limit limitPerMin now { method := m, ip := ip, path := p₁ } store =
        rate_limit limitPerMin now { method := m, ip := ip, path := p₂ }
          store) ∧
    (∀ (limitPerMin : Nat) (now : Int) (req : Req) (store store' : RateStore)
        (ip₂ : String), req.ip ≠ ip₂ →
      rate_limit limitPerMin now req store = Except.ok store' →
      storeGet store' ip₂ = storeGet store ip₂) := by
  constructor
  · intro limitPerMin now m ip p₁ p₂ store
    rfl
  · intro limitPerMin now req store store' ip₂ hip h
    simp only [rate_limit] at h
    split at h
    · rw [← Except.ok.inj h]
    · split at h
      · simp at h
      · rw [← Except.ok.inj h, storeGet_storeSet_ne _ _ _ _ hip]

/-- C8 witness: a POST from one client records nothing under another
client's address. -/
theorem rate_limit_per_client_granularity_witness :
    leadReq.ip ≠ "10.0.0.1" ∧
    rate_limit 3 0 leadReq [] = Except.ok [("198.51.100.9", [0])] ∧
    storeGet [("198.51.100.9", [0])] "10.0.0.1" =
      storeGet ([] : RateStore) "10.0.0.1" :=
  ⟨by decide, rfl,
   rate_limit_per_client_granularity.2 3 0 leadReq [] [("198.51.100.9", [0])]
     "10.0.0.1" (by decide) rfl⟩

/-! ## Lead Intake (main.py `create_lead`) -/

/-- Pydantic `LeadSchema`: name, email (format validation elided), optional
phone and message defaulting to "". -/
structure LeadSchema where
  name : String
  email : String
  phone : String := ""
  message : String := ""

/-- One row of the `leads` table (auto-increment id and `created_at` elided). -/
structure LeadRow where
  name : String
  email : String
  phone : String
  message : String

/-- The `try`/`except` around the SMTP block of `create_lead`: whatever the
notification outcome — delivered, or an exception such as an unreachable
relay — the exception is swallowed (logged only) and execution continues. -/
def tryNotify (outcome : Except String Unit) : Unit :=
  match outcome with
  | Except.ok _ => ()
  | Except.error _ => ()

/-- main.py `create_lead`: throttles, persists the Lead row, then makes the
best-effort notification attempt whose outcome `notifyOutcome` is supplied
by the environment; replies 201 `{"detail": "Lead received"}` (id elided). -/
def create_lead (limitPerMin : Nat) (now : Int) (req : Req)
    (store : RateStore) (leads : List LeadRow)
    (notifyOutcome : Except String Unit) (lead : LeadSchema) :
    Except HTTPError (RateStore × List LeadRow × String) :=
  match rate_limit limitPerMin now req store with
  | Except.error e => Except.error e
  | Except.ok store' =>
    let leads' := leads ++ [{ name := lead.name, email := lead.email,
                              phone := lead.phone, message := lead.message }]
    let _u := tryNotify notifyOutcome
    Except.ok (store', leads', "Lead received")

/-- C9: every lead submission that passes the throttle persists the Lead row
and returns the success acknowledgment for every notification outcome — a
notification failure (e.g. unreachable relay) neither fails the request nor
rolls back the persisted row, and yields the very same result as a delivered
notification. -/
theorem create_lead_decoupled_from_notification :
    ∀ (limitPerMin : Nat) (now : Int) (req : Req) (store store' : RateStore)
      (leads : List LeadRow) (lead : LeadSchema),
      rate_limit limitPerMin now req store = Except.ok store' →
      ∀ (outcome : Except String Unit),
        create_lead limitPerMin now req store leads outcome lead =
          Except.ok (store',
            leads ++ [{ name := lead.name, email := lead.email,
                        phone := lead.phone, message := lead.message }],
            "Lead received") := by
  intro limitPerMin now req store store' leads lead h outcome
  simp [create_lead, h]

/-- Concrete lead submission used by the C9 witness. -/
def lead0 : LeadSchema :=
  { name := "N", email := "n@example.com", phone := "1", message := "hi" }

/-- C9 witness: with the relay unreachable (notification errors out), the
concrete submission still persists its row and answers "Lead received". -/
theorem create_lead_decoupled_from_notification_witness :
    rate_limit 3 0 leadReq [] = Except.ok [("198.51.100.9", [0])] ∧
    create_lead 3 0 leadReq [] [] (Except.error "relay unreachable") lead0 =
      Except.ok ([("198.51.100.9", [0])],
        [{ name := "N", email := "n@example.com", phone := "1",
           message := "hi" }],
        "Lead received") :=
  ⟨rfl,
   create_lead_decoupled_from_notification 3 0 leadReq [] [("198.51.100.9", [0])]
     [] lead0 rfl (Except.error "relay unreachable")⟩
